import Mathlib

/-!
Shallow embedding of the Luma3DS SVC interception layer (k11 extension
`svc.c`, rosalina `menu.c` excerpt), the extended memory-unmap replacement
handler (`UnmapProcessMemoryEx`) and the fatal-error IPC service
(`errdisp.c` excerpt, `ERRF_HandleCommands`), together with theorems
checking the natural-language specification against this code.
-/

namespace Luma

/-- Byte-addressable view of the kernel stack page: `byteAt off` is the
byte stored at address `pageEnd + off` (offsets used by the code are
negative).  Values are reduced mod 256 at read time. -/
structure KernelStackFrame where
  byteAt : Int → Nat

/-- Read `*(u8 *)(pageEnd + off)`. -/
def readU8 (f : KernelStackFrame) (off : Int) : Nat :=
  f.byteAt off % 256

/-- Read `*(u32 *)(pageEnd + off)` (little-endian composition of four
bytes, as on the ARM11). -/
def readU32 (f : KernelStackFrame) (off : Int) : Nat :=
  readU8 f off + 0x100 * readU8 f (off + 1) + 0x10000 * readU8 f (off + 2) +
    0x1000000 * readU8 f (off + 3)

/-- Modelled from the spec: the per-process custom flag bits ("signal on
exit", "signal on memory-layout changed", "layout changed").  The enum
defining the numeric values lives in a k11-extension header that is not
part of the excerpt; the spec describes them as a per-process bit-flag
set, so they are modelled as distinct single bits. -/
def SignalOnExit : Nat := 1

/-- Modelled from the spec: see `SignalOnExit`. -/
def SignalOnMemLayoutChanges : Nat := 2

/-- Modelled from the spec: see `SignalOnExit`. -/
def MemLayoutChanged : Nat := 4

/-- Debug event as delivered by `SignalDebugEvent(DBGEVENT_OUTPUT_STRING,
info, svcId)`: the event type is the fixed `DBGEVENT_OUTPUT_STRING` tag in
both hooks, so only the `info` sentinel marker and the call id vary. -/
structure DebugEvent where
  marker : Nat
  svcId : Nat
  deriving DecidableEq

/-- Result of `signalSvcEntry`: the call identifier the hook derived from
the stack frame, and the debug event it delivered (if any). -/
structure SvcEntryResult where
  svcId : Nat
  debugEvent : Option DebugEvent
  deriving DecidableEq

/-- Embedding of `signalSvcEntry` (svc.c).  `debugAttached` models
`debugOfProcess(currentProcess) != NULL` and `shouldSignal` models
`shouldSignalSyscallDebugEvent(currentProcess, svcId)`. -/
def signalSvcEntry (f : KernelStackFrame) (debugAttached : Bool)
    (shouldSignal : Nat → Bool) : SvcEntryResult :=
  let svcId0 := readU8 f (-0xB5)
  let svcId := if svcId0 = 0xFE then readU32 f (-0x110 + 8 * 4) else svcId0
  { svcId := svcId
    debugEvent :=
      if debugAttached && shouldSignal svcId then
        some { marker := 0xFFFFFFFE, svcId := svcId }
      else none }

/-- Result of `signalSvcReturn`: derived call identifier, debug event (if
any), the process custom flags after the hook ran, and whether the
per-process memory-layout-change event was signalled. -/
structure SvcReturnResult where
  svcId : Nat
  debugEvent : Option DebugEvent
  customFlags : Nat
  memLayoutEventSignaled : Bool
  deriving DecidableEq

/-- Embedding of `signalSvcReturn` (svc.c).  `flags` is
`KPROCESS_GET_RVALUE(currentProcess, customFlags)`; the write through
`KPROCESS_GET_PTR` is modelled by the `customFlags` field of the result,
and `SignalEvent(... onMemoryLayoutChangeEvent)` by
`memLayoutEventSignaled`. -/
def signalSvcReturn (f : KernelStackFrame) (flags : Nat)
    (debugAttached : Bool) (shouldSignal : Nat → Bool) : SvcReturnResult :=
  let svcId0 := readU8 f (-0xB5)
  let svcId := if svcId0 = 0xFE then readU32 f (-0x110 + 8 * 4) else svcId0
  { svcId := svcId
    debugEvent :=
      if debugAttached && shouldSignal svcId then
        some { marker := 0xFFFFFFFF, svcId := svcId }
      else none
    customFlags :=
      if flags &&& SignalOnMemLayoutChanges ≠ 0 ∧ flags &&& MemLayoutChanged ≠ 0 then
        flags &&& (0xFFFFFFFF ^^^ MemLayoutChanged)
      else flags
    memLayoutEventSignaled :=
      decide (flags &&& SignalOnMemLayoutChanges ≠ 0 ∧ flags &&& MemLayoutChanged ≠ 0) }

/-- Handler value returned by `svcHook`: one of the named replacement
handlers, an entry `officialSVCs[id]` of the original-handler table, or
the NULL "no handler" sentinel. -/
inductive Handler where
  | controlMemoryHookWrapper
  | official (id : Nat)
  | getHandleInfoHookWrapper
  | getSystemInfoHookWrapper
  | getProcessInfoHookWrapper
  | getThreadInfoHookWrapper
  | connectToPortHookWrapper
  | getCFWInfo
  | sendSyncRequestHook
  | breakHandler
  | setGpuProt
  | setWifiEnabled
  | backdoor
  | kernelSetStateHook
  | customBackdoor
  | convertVAToPA
  | flushDataCacheRange
  | flushEntireDataCache
  | invalidateInstructionCacheRange
  | invalidateEntireInstructionCache
  | mapProcessMemoryExWrapper
  | unmapProcessMemoryEx
  | controlMemoryEx
  | controlMemoryUnsafeWrapper
  | controlService
  | copyHandleWrapper
  | translateHandleWrapper
  | controlProcess
  | null
  deriving DecidableEq

/-- Thread object, restricted to the fields `svcHook` touches: the owning
process (identified by a process id) and the scheduling mask. -/
structure KThread where
  ownerProcess : Nat
  schedulingMask : Nat
  deriving DecidableEq

/-- Body of the thread-list loop in `svcHook` case 0x03: if the thread
belongs to the terminating process and has the held bit 0x20 set, execute
`thread->schedulingMask &= ~0x20`; otherwise leave it alone. -/
def clearHeldBit (currentProcess : Nat) (t : KThread) : KThread :=
  if t.ownerProcess = currentProcess ∧ t.schedulingMask &&& 0x20 ≠ 0 then
    { t with schedulingMask := t.schedulingMask &&& (0xFFFFFFFF ^^^ 0x20) }
  else t

/-- Result of `svcHook`: the handler it returns to the trap path, the
global thread list after the call (only case 0x03 may rewrite it), and
whether `PLG_SignalEvent(PLG_CFG_EXIT_EVENT)` was raised. -/
structure SvcHookResult where
  handler : Handler
  threads : List KThread
  plgExitSignaled : Bool
  deriving DecidableEq

/-- Switch statement of `svcHook` (svc.c), on the already-derived call
identifier.  `currentProcess` identifies
`currentCoreContext->objectContext.currentProcess`, `flags` its
`customFlags`, `debugAttached` models `debugOfProcess(currentProcess) !=
NULL`, `plgRunning` models `PLG_GetStatus() == PLG_CFG_RUNNING`, and
`threads` the global thread list traversed under the critical-section
lock. -/
def svcHookSwitch (svcId : Nat) (currentProcess : Nat) (flags : Nat)
    (debugAttached : Bool) (plgRunning : Bool) (threads : List KThread) :
    SvcHookResult :=
  if svcId = 0x01 then ⟨.controlMemoryHookWrapper, threads, false⟩
  else if svcId = 0x03 then
    if flags &&& SignalOnExit ≠ 0 then
      ⟨.official 0x3, threads.map (clearHeldBit currentProcess), plgRunning⟩
    else ⟨.official 0x3, threads, false⟩
  else if svcId = 0x29 then ⟨.getHandleInfoHookWrapper, threads, false⟩
  else if svcId = 0x2A then ⟨.getSystemInfoHookWrapper, threads, false⟩
  else if svcId = 0x2B then ⟨.getProcessInfoHookWrapper, threads, false⟩
  else if svcId = 0x2C then ⟨.getThreadInfoHookWrapper, threads, false⟩
  else if svcId = 0x2D then ⟨.connectToPortHookWrapper, threads, false⟩
  else if svcId = 0x2E then ⟨.getCFWInfo, threads, false⟩
  else if svcId = 0x32 then ⟨.sendSyncRequestHook, threads, false⟩
  else if svcId = 0x3C then
    ⟨if debugAttached then .official 0x3C else .breakHandler, threads, false⟩
  else if svcId = 0x59 then ⟨.setGpuProt, threads, false⟩
  else if svcId = 0x5A then ⟨.setWifiEnabled, threads, false⟩
  else if svcId = 0x7B then ⟨.backdoor, threads, false⟩
  else if svcId = 0x7C then ⟨.kernelSetStateHook, threads, false⟩
  else if svcId = 0x80 then ⟨.customBackdoor, threads, false⟩
  else if svcId = 0x90 then ⟨.convertVAToPA, threads, false⟩
  else if svcId = 0x91 then ⟨.flushDataCacheRange, threads, false⟩
  else if svcId = 0x92 then ⟨.flushEntireDataCache, threads, false⟩
  else if svcId = 0x93 then ⟨.invalidateInstructionCacheRange, threads, false⟩
  else if svcId = 0x94 then ⟨.invalidateEntireInstructionCache, threads, false⟩
  else if svcId = 0xA0 then ⟨.mapProcessMemoryExWrapper, threads, false⟩
  else if svcId = 0xA1 then ⟨.unmapProcessMemoryEx, threads, false⟩
  else if svcId = 0xA2 then ⟨.controlMemoryEx, threads, false⟩
  else if svcId = 0xA3 then ⟨.controlMemoryUnsafeWrapper, threads, false⟩
  else if svcId = 0xB0 then ⟨.controlService, threads, false⟩
  else if svcId = 0xB1 then ⟨.copyHandleWrapper, threads, false⟩
  else if svcId = 0xB2 then ⟨.translateHandleWrapper, threads, false⟩
  else if svcId = 0xB3 then ⟨.controlProcess, threads, false⟩
  else if svcId ≤ 0x7D then ⟨.official svcId, threads, false⟩
  else ⟨.null, threads, false⟩

/-- Embedding of `svcHook` (svc.c): derive the call identifier from the
stack frame exactly as the entry/return hooks do (single byte, or the
saved r12 slot after the 0xFE escape), then run the switch. -/
def svcHook (f : KernelStackFrame) (currentProcess : Nat) (flags : Nat)
    (debugAttached : Bool) (plgRunning : Bool) (threads : List KThread) :
    SvcHookResult :=
  let svcId0 := readU8 f (-0xB5)
  let svcId := if svcId0 = 0xFE then readU32 f (-0x110 + 8 * 4) else svcId0
  svcHookSwitch svcId currentProcess flags debugAttached plgRunning threads

/-- Call identifier as all three hook functions derive it from the stack
frame (they repeat the same two reads; this shared form is used only to
state theorems, the three embeddings each perform their own reads). -/
def frameSvcId (f : KernelStackFrame) : Nat :=
  if readU8 f (-0xB5) = 0xFE then readU32 f (-0x110 + 8 * 4)
  else readU8 f (-0xB5)

/-- Call identifiers above 0x7D for which `svcHook` has an explicit custom
extension case instead of falling through to the NULL default. -/
def extensionSvcIds : List Nat :=
  [0x80, 0x90, 0x91, 0x92, 0x93, 0x94, 0xA0, 0xA1, 0xA2, 0xA3,
   0xB0, 0xB1, 0xB2, 0xB3]

/-- Concrete stack frame whose every byte is `b`: for `b ≠ 0xFE` the hooks
derive the call identifier `b % 256` through the single-byte path. -/
def directFrame (b : Nat) : KernelStackFrame := ⟨fun _ => b⟩

/-- Concrete stack frame using the 0xFE escape encoding: the byte at
`pageEnd - 0xB5` is 0xFE and the saved r12 word at `pageEnd - 0xF0` is `w`
(for `w < 256`), so the hooks derive the call identifier `w`. -/
def escapeFrame (w : Nat) : KernelStackFrame :=
  ⟨fun off => if off = -0xB5 then 0xFE else if off = -0xF0 then w else 0⟩

/-- Handler selected by the switch in `svcHook`, as a function of the
derived call identifier and the debugger-attachment state only (used to
state purity theorems; `svcHook_handler_eq` proves the embedding's handler
component coincides with it). -/
def resolvedHandler (svcId : Nat) (debugAttached : Bool) : Handler :=
  if svcId = 0x01 then .controlMemoryHookWrapper
  else if svcId = 0x03 then .official 0x3
  else if svcId = 0x29 then .getHandleInfoHookWrapper
  else if svcId = 0x2A then .getSystemInfoHookWrapper
  else if svcId = 0x2B then .getProcessInfoHookWrapper
  else if svcId = 0x2C then .getThreadInfoHookWrapper
  else if svcId = 0x2D then .connectToPortHookWrapper
  else if svcId = 0x2E then .getCFWInfo
  else if svcId = 0x32 then .sendSyncRequestHook
  else if svcId = 0x3C then (if debugAttached then .official 0x3C else .breakHandler)
  else if svcId = 0x59 then .setGpuProt
  else if svcId = 0x5A then .setWifiEnabled
  else if svcId = 0x7B then .backdoor
  else if svcId = 0x7C then .kernelSetStateHook
  else if svcId = 0x80 then .customBackdoor
  else if svcId = 0x90 then .convertVAToPA
  else if svcId = 0x91 then .flushDataCacheRange
  else if svcId = 0x92 then .flushEntireDataCache
  else if svcId = 0x93 then .invalidateInstructionCacheRange
  else if svcId = 0x94 then .invalidateEntireInstructionCache
  else if svcId = 0xA0 then .mapProcessMemoryExWrapper
  else if svcId = 0xA1 then .unmapProcessMemoryEx
  else if svcId = 0xA2 then .controlMemoryEx
  else if svcId = 0xA3 then .controlMemoryUnsafeWrapper
  else if svcId = 0xB0 then .controlService
  else if svcId = 0xB1 then .copyHandleWrapper
  else if svcId = 0xB2 then .translateHandleWrapper
  else if svcId = 0xB3 then .controlProcess
  else if svcId ≤ 0x7D then .official svcId
  else .null

/-- Observable kernel-state effects of the extended unmap handler and of
the legacy unmap call it may delegate to, recorded in program order:
the tail call to the legacy `UnmapProcessMemory`, the explicit
`KAutoObject__AddReference`, the `KProcessHandleTable__ToKProcess`
handle-table lookup, the `KProcessHwInfo__UnmapProcessMemory` page-table
change, the `DecrementReferenceCount` release, and the two cache
maintenance operations. -/
inductive UnmapEvent where
  | legacyUnmapCall (handle dst size : Nat)
  | addRef (pid : Nat)
  | resolveHandle (handle : Nat)
  | hwUnmap (pid dst numPages : Nat)
  | decRef (pid : Nat)
  | invalidateICache
  | flushDCache
  deriving DecidableEq

/-- Embedding of libctru's `GET_VERSION_MINOR` on a packed
`SYSTEM_VERSION` word. -/
def GET_VERSION_MINOR (version : Nat) : Nat := (version >>> 16) &&& 0xFF

/-- The pseudo-handle for the current process. -/
def CUR_PROCESS_HANDLE : Nat := 0xFFFF8001

/-- Model of the legacy `UnmapProcessMemory` original kernel call, which is
external to the excerpt: its result is the parameter `legacyResult` and its
state effect is recorded as the single opaque event
`UnmapEvent.legacyUnmapCall`. -/
def UnmapProcessMemory (legacyResult : Nat) (processHandle dst size : Nat) :
    Nat × List UnmapEvent :=
  (legacyResult, [.legacyUnmapCall processHandle dst size])

/-- Embedding of `UnmapProcessMemoryEx` (svc/UnmapProcessMemoryEx.c).
External collaborators are parameters: `kernelVersion` is the global
kernel version word, `currentProcess` identifies
`currentCoreContext->objectContext.currentProcess`, `resolve` models
`KProcessHandleTable__ToKProcess` on the current process's handle table
(returning the process id the handle maps to, if any), `legacyResult` the
result of the legacy call and `hwResult` the result of
`KProcessHwInfo__UnmapProcessMemory`.  The returned list records the
externally visible operations in program order. -/
def UnmapProcessMemoryEx (kernelVersion : Nat) (currentProcess : Nat)
    (resolve : Nat → Option Nat) (legacyResult hwResult : Nat)
    (processHandle dst size : Nat) : Nat × List UnmapEvent :=
  if GET_VERSION_MINOR kernelVersion < 37 then
    UnmapProcessMemory legacyResult processHandle dst size
  else
    let step : Option Nat × List UnmapEvent :=
      if processHandle = CUR_PROCESS_HANDLE then
        (some currentProcess, [UnmapEvent.addRef currentProcess])
      else (resolve processHandle, [UnmapEvent.resolveHandle processHandle])
    match step with
    | (none, evs) => (0xD8E007F7, evs)
    | (some pid, evs) =>
        (hwResult,
         evs ++ [.hwUnmap pid dst (size >>> 12), .decRef pid,
                 .invalidateICache, .flushDCache])

/-- Error types of the fatal-error record, in the order of the `types[]`
description table of errdisp.c (generic, corrupted, card removed,
exception, result failure, logged). -/
inductive ERRF_ErrType where
  | generic
  | memCorrupt
  | cardRemoved
  | exception
  | failure
  | logged
  deriving DecidableEq

/-- Fields of the fatal-error record `ERRF_FatalErrInfo` that
`ERRF_HandleCommands` inspects after `ERRF_GetErrInfo` copies it from
`cmdbuf + 1` (the full wire layout is defined in an external header). -/
structure ERRF_FatalErrInfo where
  errType : ERRF_ErrType
  procId : Nat
  deriving DecidableEq

/-- Embedding of libctru's `IPC_MakeHeader`. -/
def IPC_MakeHeader (cmdId paramsNormal paramsTranslate : Nat) : Nat :=
  (cmdId <<< 16) ||| ((paramsNormal &&& 0x3F) <<< 6) ||| (paramsTranslate &&& 0x3F)

/-- Observable outcome of one `ERRF_HandleCommands` invocation: the reply
words it stores back into `cmdbuf[0]` and `cmdbuf[1]`, the stored user
string after the call (byte `j` is `userString j`), and whether the error
screen was drawn and acknowledgment input awaited. -/
structure ErrfServiceResult where
  cmdbuf0 : Nat
  cmdbuf1 : Nat
  userString : Nat → Nat
  displayed : Bool

/-- Embedding of `ERRF_HandleCommands` (errdisp.c).  `cmdbuf j` is the
word `cmdbuf[j]` of the thread command buffer, `payload j` is byte `j` of
the memcpy source region `(u8 *)(cmdbuf + 3)`, `userString` the stored
user string before the call, `menuShouldExit` the global of the same
name, and `info` the fatal-error record `ERRF_GetErrInfo` copies out of
`cmdbuf + 1` for the Throw command. -/
def ERRF_HandleCommands (cmdbuf : Nat → Nat) (payload : Nat → Nat)
    (userString : Nat → Nat) (menuShouldExit : Bool)
    (info : ERRF_FatalErrInfo) : ErrfServiceResult :=
  match (cmdbuf 0) >>> 16 with
  | 1 =>
      { cmdbuf0 := IPC_MakeHeader 1 1 0
        cmdbuf1 := 0
        userString := userString
        displayed := !menuShouldExit &&
          (decide (info.errType ≠ ERRF_ErrType.logged) || decide (info.procId = 0)) }
  | 2 =>
      if cmdbuf 0 ≠ IPC_MakeHeader 2 1 2 ∨ (cmdbuf 2) &&& 0x3C0F ≠ 2 then
        { cmdbuf0 := IPC_MakeHeader 0 1 0
          cmdbuf1 := 0xD9001830
          userString := userString
          displayed := false }
      else
        let sz := if cmdbuf 1 ≤ 0x100 then cmdbuf 1 else 0x100
        { cmdbuf0 := IPC_MakeHeader 2 1 0
          cmdbuf1 := 0
          userString := fun j =>
            if j < sz then payload j else if j = sz then 0 else userString j
          displayed := false }
  | _ =>
      { cmdbuf0 := cmdbuf 0
        cmdbuf1 := cmdbuf 1
        userString := userString
        displayed := false }

theorem svcHook_eq_switch (f : KernelStackFrame) (c fl : Nat) (d p : Bool)
    (t : List KThread) :
    svcHook f c fl d p t = svcHookSwitch (frameSvcId f) c fl d p t := rfl

theorem svcHookSwitch_eq (i : Nat) (c fl : Nat) (d p : Bool)
    (t : List KThread) :
    svcHookSwitch i c fl d p t =
      ⟨resolvedHandler i d,
       if i = 0x03 ∧ fl &&& SignalOnExit ≠ 0 then t.map (clearHeldBit c) else t,
       decide (i = 0x03 ∧ fl &&& SignalOnExit ≠ 0) && p⟩ := by
  rcases lt_or_le i 0xB4 with hb | hb
  · interval_cases i <;>
      first
        | rfl
        | (by_cases hf : fl &&& SignalOnExit ≠ 0 <;>
            simp [svcHookSwitch, resolvedHandler, hf])
  · have n1 : i ≠ 0x01 := by omega
    have n2 : i ≠ 0x03 := by omega
    have n3 : i ≠ 0x29 := by omega
    have n4 : i ≠ 0x2A := by omega
    have n5 : i ≠ 0x2B := by omega
    have n6 : i ≠ 0x2C := by omega
    have n7 : i ≠ 0x2D := by omega
    have n8 : i ≠ 0x2E := by omega
    have n9 : i ≠ 0x32 := by omega
    have n10 : i ≠ 0x3C := by omega
    have n11 : i ≠ 0x59 := by omega
    have n12 : i ≠ 0x5A := by omega
    have n13 : i ≠ 0x7B := by omega
    have n14 : i ≠ 0x7C := by omega
    have n15 : i ≠ 0x80 := by omega
    have n16 : i ≠ 0x90 := by omega
    have n17 : i ≠ 0x91 := by omega
    have n18 : i ≠ 0x92 := by omega
    have n19 : i ≠ 0x93 := by omega
    have n20 : i ≠ 0x94 := by omega
    have n21 : i ≠ 0xA0 := by omega
    have n22 : i ≠ 0xA1 := by omega
    have n23 : i ≠ 0xA2 := by omega
    have n24 : i ≠ 0xA3 := by omega
    have n25 : i ≠ 0xB0 := by omega
    have n26 : i ≠ 0xB1 := by omega
    have n27 : i ≠ 0xB2 := by omega
    have n28 : i ≠ 0xB3 := by omega
    have n29 : ¬ i ≤ 0x7D := by omega
    simp [svcHookSwitch, resolvedHandler, n1, n2, n3, n4, n5, n6, n7, n8, n9,
      n10, n11, n12, n13, n14, n15, n16, n17, n18, n19, n20, n21, n22, n23,
      n24, n25, n26, n27, n28, n29]

theorem resolvedHandler_ne_null_of_le :
    ∀ (d : Bool), ∀ i ≤ 0x7D, resolvedHandler i d ≠ Handler.null := by decide

theorem resolvedHandler_ne_null_of_ext :
    ∀ (d : Bool), ∀ i ∈ extensionSvcIds, resolvedHandler i d ≠ Handler.null := by
  decide

theorem resolvedHandler_null_of_gt (i : Nat) (d : Bool) (hgt : 0x7D < i)
    (hm : i ∉ extensionSvcIds) : resolvedHandler i d = Handler.null := by
  simp only [extensionSvcIds, List.mem_cons, List.not_mem_nil, or_false,
    not_or] at hm
  obtain ⟨m1, m2, m3, m4, m5, m6, m7, m8, m9, m10, m11, m12, m13, m14⟩ := hm
  have n1 : i ≠ 0x01 := by omega
  have n2 : i ≠ 0x03 := by omega
  have n3 : i ≠ 0x29 := by omega
  have n4 : i ≠ 0x2A := by omega
  have n5 : i ≠ 0x2B := by omega
  have n6 : i ≠ 0x2C := by omega
  have n7 : i ≠ 0x2D := by omega
  have n8 : i ≠ 0x2E := by omega
  have n9 : i ≠ 0x32 := by omega
  have n10 : i ≠ 0x3C := by omega
  have n11 : i ≠ 0x59 := by omega
  have n12 : i ≠ 0x5A := by omega
  have n13 : i ≠ 0x7B := by omega
  have n14 : i ≠ 0x7C := by omega
  have n15 : ¬ i ≤ 0x7D := by omega
  simp [resolvedHandler, n1, n2, n3, n4, n5, n6, n7, n8, n9, n10, n11, n12,
    n13, n14, n15, m1, m2, m3, m4, m5, m6, m7, m8, m9, m10, m11, m12, m13, m14]

theorem clearHeldBit_ownerProcess (c : Nat) (th : KThread) :
    (clearHeldBit c th).ownerProcess = th.ownerProcess := by
  unfold clearHeldBit
  split <;> rfl

theorem clearHeldBit_no_held (c : Nat) (th : KThread)
    (h : th.ownerProcess = c) :
    (clearHeldBit c th).schedulingMask &&& 0x20 = 0 := by
  unfold clearHeldBit
  split
  · show (th.schedulingMask &&& (0xFFFFFFFF ^^^ 0x20)) &&& 0x20 = 0
    rw [Nat.land_assoc]
    have hm : ((0xFFFFFFFF ^^^ 0x20 : Nat) &&& 0x20) = 0 := by decide
    rw [hm, Nat.and_zero]
  · rename_i hn
    simp only [not_and, ne_eq, not_not] at hn
    exact hn h

theorem clearHeldBit_other (c : Nat) (th : KThread)
    (h : th.ownerProcess ≠ c) : clearHeldBit c th = th := by
  unfold clearHeldBit
  rw [if_neg]
  exact fun hc => h hc.1

theorem clearHeldBit_of_clear (c : Nat) (th : KThread)
    (h : th.schedulingMask &&& 0x20 = 0) : clearHeldBit c th = th := by
  unfold clearHeldBit
  rw [if_neg]
  exact fun hc => hc.2 h

theorem clearHeldBit_idem (c : Nat) (th : KThread) :
    clearHeldBit c (clearHeldBit c th) = clearHeldBit c th := by
  by_cases h : th.ownerProcess = c
  · exact clearHeldBit_of_clear c _ (clearHeldBit_no_held c th h)
  · simp [clearHeldBit_other c th h]

theorem map_clearHeldBit_idem (c : Nat) (l : List KThread) :
    (l.map (clearHeldBit c)).map (clearHeldBit c) = l.map (clearHeldBit c) := by
  induction l with
  | nil => rfl
  | cons a l ih => simp [clearHeldBit_idem, ih]

end Luma

/-- C2: the entry hook and the return hook derive the same call identifier
from the same stack-frame contents, on both the direct single-byte path
and the 0xFE escape path that reads the saved r12 slot. -/
theorem c2_entry_return_same_svcId (f : Luma.KernelStackFrame)
    (dbgE dbgR : Bool) (sigE sigR : Nat → Bool) (flags : Nat) :
    (Luma.signalSvcEntry f dbgE sigE).svcId =
      (Luma.signalSvcReturn f flags dbgR sigR).svcId := rfl

/-- C1 (amended): for every call identifier in the supported range
(0–0x7D) the hook resolver returns a handler (a replacement or the
original table entry, never NULL); for identifiers above the range it
returns the NULL "no handler" sentinel — except for the custom extension
identifiers (0x80, 0x90–0x94, 0xA0–0xA3, 0xB0–0xB3), which resolve to
their custom extension handlers instead of NULL. -/
theorem c1_resolver_range_amended (f : Luma.KernelStackFrame) (c fl : Nat)
    (d p : Bool) (t : List Luma.KThread) :
    (Luma.frameSvcId f ≤ 0x7D →
      (Luma.svcHook f c fl d p t).handler ≠ Luma.Handler.null) ∧
    (0x7D < Luma.frameSvcId f → Luma.frameSvcId f ∉ Luma.extensionSvcIds →
      (Luma.svcHook f c fl d p t).handler = Luma.Handler.null) ∧
    (Luma.frameSvcId f ∈ Luma.extensionSvcIds →
      (Luma.svcHook f c fl d p t).handler ≠ Luma.Handler.null) := by
  rw [Luma.svcHook_eq_switch, Luma.svcHookSwitch_eq]
  refine ⟨fun hle => ?_, fun hgt hm => ?_, fun hm => ?_⟩
  · exact Luma.resolvedHandler_ne_null_of_le d _ hle
  · exact Luma.resolvedHandler_null_of_gt _ d hgt hm
  · exact Luma.resolvedHandler_ne_null_of_ext d _ hm

/-- C1 counterexample: the claim as stated says every identifier above
0x7D resolves to NULL, but the custom backdoor identifier 0x80 (reached
through the 0xFE escape encoding) resolves to a non-NULL handler. -/
theorem c1_resolver_range_counterexample :
    0x7D < Luma.frameSvcId (Luma.escapeFrame 0x80) ∧
    (Luma.svcHook (Luma.escapeFrame 0x80) 0 0 false false []).handler ≠
      Luma.Handler.null := by decide

/-- C1 witness: instantiates the amended theorem at call identifiers 0x50
(in range), 0x7F (above range, not an extension) and 0x90 (extension). -/
theorem c1_resolver_range_witness :
    (Luma.svcHook (Luma.directFrame 0x50) 0 0 false false []).handler ≠
      Luma.Handler.null ∧
    (Luma.svcHook (Luma.directFrame 0x7F) 0 0 false false []).handler =
      Luma.Handler.null ∧
    (Luma.svcHook (Luma.escapeFrame 0x90) 0 0 false false []).handler ≠
      Luma.Handler.null :=
  ⟨(c1_resolver_range_amended (Luma.directFrame 0x50) 0 0 false false []).1
      (by decide),
   (c1_resolver_range_amended (Luma.directFrame 0x7F) 0 0 false false []).2.1
      (by decide) (by decide),
   (c1_resolver_range_amended (Luma.escapeFrame 0x90) 0 0 false false []).2.2
      (by decide)⟩

/-- C4: after the resolver processes a process-termination call (SVC 0x03)
of a process whose custom flags include "signal on exit", the thread list
is the image of the held-bit-clearing pass: no thread owned by that
process retains the held scheduling bit 0x20, the clearing pass leaves
threads of other processes unchanged, and running the resolver (and hence
the clearing pass) a second time leaves the thread list unchanged. -/
theorem c4_exit_clears_held (f : Luma.KernelStackFrame) (c fl : Nat)
    (d p : Bool) (t : List Luma.KThread)
    (hid : Luma.frameSvcId f = 0x03)
    (hfl : fl &&& Luma.SignalOnExit ≠ 0) :
    (Luma.svcHook f c fl d p t).threads = t.map (Luma.clearHeldBit c) ∧
    (∀ th ∈ (Luma.svcHook f c fl d p t).threads,
      th.ownerProcess = c → th.schedulingMask &&& 0x20 = 0) ∧
    (∀ th, th.ownerProcess ≠ c → Luma.clearHeldBit c th = th) ∧
    (Luma.svcHook f c fl d p (Luma.svcHook f c fl d p t).threads).threads =
      (Luma.svcHook f c fl d p t).threads := by
  have hth : ∀ (l : List Luma.KThread),
      (Luma.svcHook f c fl d p l).threads = l.map (Luma.clearHeldBit c) := by
    intro l
    rw [Luma.svcHook_eq_switch, Luma.svcHookSwitch_eq]
    simp [hid, hfl]
  refine ⟨hth t, ?_, ?_, ?_⟩
  · rw [hth t]
    intro th hmem howner
    rcases List.mem_map.mp hmem with ⟨s, _, rfl⟩
    have hs : s.ownerProcess = c := by
      rw [← Luma.clearHeldBit_ownerProcess c s]; exact howner
    exact Luma.clearHeldBit_no_held c s hs
  · exact fun th h => Luma.clearHeldBit_other c th h
  · rw [hth t, hth (t.map (Luma.clearHeldBit c))]
    exact Luma.map_clearHeldBit_idem c t

/-- C4 witness: instantiates the theorem for SVC 0x03 with
"signal on exit" set, a held thread of the terminating process (pid 0)
and a held thread of another process (pid 1). -/
theorem c4_exit_clears_held_witness :
    Luma.frameSvcId (Luma.directFrame 0x03) = 0x03 ∧
    (1 : Nat) &&& Luma.SignalOnExit ≠ 0 ∧
    ((Luma.svcHook (Luma.directFrame 0x03) 0 1 false false
        [⟨0, 0x25⟩, ⟨1, 0x20⟩]).threads =
      [⟨0, 0x25⟩, ⟨1, 0x20⟩].map (Luma.clearHeldBit 0) ∧
    (∀ th ∈ (Luma.svcHook (Luma.directFrame 0x03) 0 1 false false
        [⟨0, 0x25⟩, ⟨1, 0x20⟩]).threads,
      th.ownerProcess = 0 → th.schedulingMask &&& 0x20 = 0) ∧
    (∀ th : Luma.KThread, th.ownerProcess ≠ 0 → Luma.clearHeldBit 0 th = th) ∧
    (Luma.svcHook (Luma.directFrame 0x03) 0 1 false false
        (Luma.svcHook (Luma.directFrame 0x03) 0 1 false false
          [⟨0, 0x25⟩, ⟨1, 0x20⟩]).threads).threads =
      (Luma.svcHook (Luma.directFrame 0x03) 0 1 false false
        [⟨0, 0x25⟩, ⟨1, 0x20⟩]).threads) :=
  ⟨by decide, by decide,
   c4_exit_clears_held (Luma.directFrame 0x03) 0 1 false false
     [⟨0, 0x25⟩, ⟨1, 0x20⟩] (by decide) (by decide)⟩

/-- C5 counterexample: resolving the process-termination call of a process
with "signal on exit" set is not side-effect free — it clears the held bit
of that process's threads, so the thread state is changed by the lookup. -/
theorem c5_resolver_pure_counterexample :
    (Luma.svcHook (Luma.directFrame 0x03) 0 1 false false
      [{ ownerProcess := 0, schedulingMask := 0x20 }]).threads ≠
      [{ ownerProcess := 0, schedulingMask := 0x20 }] := by decide

/-- C5 (amended): the handler returned by `svcHook` is a pure function of
the derived call identifier and the debugger-attachment state alone (for
any process, custom flags, plugin state and thread list); and the hook
leaves the thread list and plugin-event state untouched except when the
call is the process termination call 0x03 of a process whose custom flags
include "signal on exit". -/
theorem c5_resolver_purity_amended (f1 f2 : Luma.KernelStackFrame)
    (cA cB flA flB : Nat) (d pA pB : Bool)
    (t1 t2 : List Luma.KThread)
    (hid : Luma.frameSvcId f1 = Luma.frameSvcId f2) :
    ((Luma.svcHook f1 cA flA d pA t1).handler =
      (Luma.svcHook f2 cB flB d pB t2).handler) ∧
    (Luma.frameSvcId f1 ≠ 0x03 ∨ flA &&& Luma.SignalOnExit = 0 →
      (Luma.svcHook f1 cA flA d pA t1).threads = t1 ∧
      (Luma.svcHook f1 cA flA d pA t1).plgExitSignaled = false) := by
  constructor
  · rw [Luma.svcHook_eq_switch, Luma.svcHook_eq_switch,
      Luma.svcHookSwitch_eq, Luma.svcHookSwitch_eq, hid]
  · intro hcond
    rw [Luma.svcHook_eq_switch, Luma.svcHookSwitch_eq]
    rcases hcond with h | h
    · simp [h]
    · simp [h]

/-- C5 witness: the direct single-byte encoding of call 5 and the 0xFE
escape encoding of call 5 resolve to the same handler whatever the state;
for this non-termination call the thread list and plugin state are
untouched. -/
theorem c5_resolver_purity_witness :
    Luma.frameSvcId (Luma.directFrame 5) = Luma.frameSvcId (Luma.escapeFrame 5) ∧
    ((Luma.svcHook (Luma.directFrame 5) 0 3 true true [⟨9, 0x20⟩]).handler =
      (Luma.svcHook (Luma.escapeFrame 5) 7 0 true false []).handler) ∧
    ((Luma.svcHook (Luma.directFrame 5) 0 3 true true [⟨9, 0x20⟩]).threads =
        [⟨9, 0x20⟩] ∧
      (Luma.svcHook (Luma.directFrame 5) 0 3 true true
        [⟨9, 0x20⟩]).plgExitSignaled = false) :=
  have h := c5_resolver_purity_amended (Luma.directFrame 5)
    (Luma.escapeFrame 5) 0 7 3 0 true true false [⟨9, 0x20⟩] [] (by decide)
  ⟨by decide, h.1, h.2 (Or.inl (by decide))⟩

/-- C6: on every SVC return — whatever call identifier the frame encodes —
if the process custom flags have both "signal on memory-layout changed"
and "layout changed" set, the return hook clears "layout changed" (every
other flag bit, including "signal on memory-layout changed", is
unchanged) and signals the memory-layout-change event; otherwise the
flags are left exactly as they were and no event is signalled.  `flags`
is a 32-bit quantity in the code, whence the bound. -/
theorem c6_mem_layout_signal (f : Luma.KernelStackFrame) (flags : Nat)
    (d : Bool) (sig : Nat → Bool) (h32 : flags < 2 ^ 32) :
    (flags &&& Luma.SignalOnMemLayoutChanges ≠ 0 ∧
        flags &&& Luma.MemLayoutChanged ≠ 0 →
      (Luma.signalSvcReturn f flags d sig).customFlags &&&
          Luma.MemLayoutChanged = 0 ∧
      (∀ j, j ≠ 2 →
        ((Luma.signalSvcReturn f flags d sig).customFlags).testBit j =
          flags.testBit j) ∧
      (Luma.signalSvcReturn f flags d sig).memLayoutEventSignaled = true) ∧
    (¬(flags &&& Luma.SignalOnMemLayoutChanges ≠ 0 ∧
        flags &&& Luma.MemLayoutChanged ≠ 0) →
      (Luma.signalSvcReturn f flags d sig).customFlags = flags ∧
      (Luma.signalSvcReturn f flags d sig).memLayoutEventSignaled = false) := by
  constructor
  · intro hc
    have hcf : (Luma.signalSvcReturn f flags d sig).customFlags =
        flags &&& (0xFFFFFFFF ^^^ Luma.MemLayoutChanged) := by
      simp [Luma.signalSvcReturn, hc.1, hc.2]
    refine ⟨?_, ?_, ?_⟩
    · rw [hcf, Nat.land_assoc]
      have hm : ((0xFFFFFFFF ^^^ Luma.MemLayoutChanged : Nat) &&&
          Luma.MemLayoutChanged) = 0 := by decide
      rw [hm, Nat.and_zero]
    · intro j hj
      rw [hcf, Nat.testBit_and]
      rcases lt_or_le j 32 with hlt | hge
      · have hb : ∀ k, k < 32 → k ≠ 2 →
            Nat.testBit (0xFFFFFFFF ^^^ Luma.MemLayoutChanged) k = true := by
          decide
        rw [hb j hlt hj, Bool.and_true]
      · have hf : flags.testBit j = false :=
          Nat.testBit_lt_two_pow
            (lt_of_lt_of_le h32 (Nat.pow_le_pow_right (by norm_num) hge))
        have hmk : Nat.testBit (0xFFFFFFFF ^^^ Luma.MemLayoutChanged) j = false :=
          Nat.testBit_lt_two_pow
            (lt_of_lt_of_le (by decide) (Nat.pow_le_pow_right (by norm_num) hge))
        rw [hf, hmk]
        rfl
    · simp [Luma.signalSvcReturn, hc.1, hc.2]
  · intro hc
    constructor
    · simp [Luma.signalSvcReturn, hc]
    · simp [Luma.signalSvcReturn, hc]

/-- C6 witness: instantiates the theorem at flags 6 (both bits set: bit 2
is cleared, bit 1 survives, event signalled) and at flags 4 (only "layout
changed": flags untouched, no event). -/
theorem c6_mem_layout_signal_witness :
    ((6 : Nat) &&& Luma.SignalOnMemLayoutChanges ≠ 0 ∧
      (6 : Nat) &&& Luma.MemLayoutChanged ≠ 0) ∧
    ((Luma.signalSvcReturn (Luma.directFrame 0x08) 6 false
        (fun _ => false)).customFlags &&& Luma.MemLayoutChanged = 0 ∧
      (∀ j, j ≠ 2 →
        ((Luma.signalSvcReturn (Luma.directFrame 0x08) 6 false
          (fun _ => false)).customFlags).testBit j = (6 : Nat).testBit j) ∧
      (Luma.signalSvcReturn (Luma.directFrame 0x08) 6 false
        (fun _ => false)).memLayoutEventSignaled = true) ∧
    ((Luma.signalSvcReturn (Luma.directFrame 0x08) 4 false
        (fun _ => false)).customFlags = 4 ∧
      (Luma.signalSvcReturn (Luma.directFrame 0x08) 4 false
        (fun _ => false)).memLayoutEventSignaled = false) :=
  ⟨⟨by decide, by decide⟩,
   (c6_mem_layout_signal (Luma.directFrame 0x08) 6 false (fun _ => false)
      (by norm_num)).1 ⟨by decide, by decide⟩,
   (c6_mem_layout_signal (Luma.directFrame 0x08) 4 false (fun _ => false)
      (by norm_num)).2 (by decide)⟩

/-- C3: below the kernel-version threshold (minor version 37) the extended
unmap handler delegates entirely to the legacy `UnmapProcessMemory` call:
for every handle, destination and size within the legacy call's 64MB
maximum, result and state effects are exactly those of invoking the
legacy call directly. -/
theorem c3_version_gate_legacy_equiv (kv cur : Nat)
    (resolve : Nat → Option Nat) (legacyResult hwResult h dst size : Nat)
    (hver : Luma.GET_VERSION_MINOR kv < 37)
    (hsz : size ≤ 0x4000000) :
    Luma.UnmapProcessMemoryEx kv cur resolve legacyResult hwResult h dst size =
      Luma.UnmapProcessMemory legacyResult h dst size := by
  unfold Luma.UnmapProcessMemoryEx
  rw [if_pos hver]

/-- C3 witness: instantiates the theorem at kernel version word 0 (minor
version 0) and a 4KB unmap. -/
theorem c3_version_gate_legacy_equiv_witness :
    Luma.GET_VERSION_MINOR 0 < 37 ∧ (0x1000 : Nat) ≤ 0x4000000 ∧
    Luma.UnmapProcessMemoryEx 0 1 (fun _ => none) 0xC0DE 0 5 0x100000 0x1000 =
      Luma.UnmapProcessMemory 0xC0DE 5 0x100000 0x1000 :=
  ⟨by decide, by decide,
   c3_version_gate_legacy_equiv 0 1 (fun _ => none) 0xC0DE 0 5 0x100000 0x1000
     (by decide) (by decide)⟩

/-- C7 counterexample: on a below-threshold kernel the handler returns via
the legacy delegation without touching either cache, so it is not the
case that every execution of `UnmapProcessMemoryEx` invalidates the
instruction cache and flushes the data cache before returning. -/
theorem c7_cache_counterexample :
    Luma.UnmapEvent.invalidateICache ∉
      (Luma.UnmapProcessMemoryEx 0 1 (fun _ => none) 0 0 5 0x100000 0x1000).2 ∧
    Luma.UnmapEvent.flushDCache ∉
      (Luma.UnmapProcessMemoryEx 0 1 (fun _ => none) 0 0 5 0x100000 0x1000).2 := by
  decide

/-- C7 (amended): on every execution of `UnmapProcessMemoryEx` that passes
the kernel-version gate and resolves a process object, the instruction
cache is invalidated and the data cache flushed after the structural
page-table change (the `hwUnmap` event) and before the call returns,
regardless of whether the delegated unmap succeeded or failed (the result
`hwResult` is arbitrary); executions stopped by the version gate or by
handle-resolution failure perform no structural change and no cache
maintenance. -/
theorem c7_cache_maintenance_amended (kv cur : Nat)
    (resolve : Nat → Option Nat) (legacyResult hwResult h dst size pid : Nat)
    (hver : ¬ Luma.GET_VERSION_MINOR kv < 37)
    (hres : (if h = Luma.CUR_PROCESS_HANDLE then some cur else resolve h) =
      some pid) :
    (Luma.UnmapProcessMemoryEx kv cur resolve legacyResult hwResult
        h dst size).1 = hwResult ∧
    (Luma.UnmapProcessMemoryEx kv cur resolve legacyResult hwResult
        h dst size).2 =
      (if h = Luma.CUR_PROCESS_HANDLE then [Luma.UnmapEvent.addRef cur]
       else [Luma.UnmapEvent.resolveHandle h]) ++
        [Luma.UnmapEvent.hwUnmap pid dst (size >>> 12),
         Luma.UnmapEvent.decRef pid,
         Luma.UnmapEvent.invalidateICache, Luma.UnmapEvent.flushDCache] := by
  unfold Luma.UnmapProcessMemoryEx
  rw [if_neg hver]
  by_cases hc : h = Luma.CUR_PROCESS_HANDLE
  · rw [if_pos hc] at hres
    obtain rfl := Option.some.inj hres
    simp [hc]
  · rw [if_neg hc] at hres
    simp [hc, hres]

/-- C7 witness: instantiates the amended theorem at a minor-37 kernel for
the current-process pseudo-handle with a failing hardware unmap (result
0xE0E01BF5): the cache maintenance still follows the page-table change. -/
theorem c7_cache_maintenance_witness :
    ¬ Luma.GET_VERSION_MINOR 0x250000 < 37 ∧
    (Luma.UnmapProcessMemoryEx 0x250000 7 (fun _ => none) 0 0xE0E01BF5
        Luma.CUR_PROCESS_HANDLE 0x200000 0x3000).1 = 0xE0E01BF5 ∧
    (Luma.UnmapProcessMemoryEx 0x250000 7 (fun _ => none) 0 0xE0E01BF5
        Luma.CUR_PROCESS_HANDLE 0x200000 0x3000).2 =
      (if Luma.CUR_PROCESS_HANDLE = Luma.CUR_PROCESS_HANDLE then
        [Luma.UnmapEvent.addRef 7]
       else [Luma.UnmapEvent.resolveHandle Luma.CUR_PROCESS_HANDLE]) ++
        [Luma.UnmapEvent.hwUnmap 7 0x200000 (0x3000 >>> 12),
         Luma.UnmapEvent.decRef 7,
         Luma.UnmapEvent.invalidateICache, Luma.UnmapEvent.flushDCache] :=
  ⟨by decide,
   c7_cache_maintenance_amended 0x250000 7 (fun _ => none) 0 0xE0E01BF5
     Luma.CUR_PROCESS_HANDLE 0x200000 0x3000 7 (by decide) (by decide)⟩

/-- C8: at or above the version gate, when the handle is not the
current-process pseudo-handle and the handle table resolves it to no
process object, `UnmapProcessMemoryEx` returns the invalid-handle error
0xD8E007F7, performs no unmap, acquires and releases no process
reference, and leaves the object registry untouched (the only recorded
operation is the failed lookup itself). -/
theorem c8_invalid_handle_clean (kv cur : Nat) (resolve : Nat → Option Nat)
    (legacyResult hwResult h dst size : Nat)
    (hver : ¬ Luma.GET_VERSION_MINOR kv < 37)
    (hch : h ≠ Luma.CUR_PROCESS_HANDLE)
    (hres : resolve h = none) :
    (Luma.UnmapProcessMemoryEx kv cur resolve legacyResult hwResult
        h dst size).1 = 0xD8E007F7 ∧
    (Luma.UnmapProcessMemoryEx kv cur resolve legacyResult hwResult
        h dst size).2 = [Luma.UnmapEvent.resolveHandle h] ∧
    (∀ pid pdst pn, Luma.UnmapEvent.hwUnmap pid pdst pn ∉
      (Luma.UnmapProcessMemoryEx kv cur resolve legacyResult hwResult
        h dst size).2) ∧
    (∀ pid, Luma.UnmapEvent.addRef pid ∉
        (Luma.UnmapProcessMemoryEx kv cur resolve legacyResult hwResult
          h dst size).2 ∧
      Luma.UnmapEvent.decRef pid ∉
        (Luma.UnmapProcessMemoryEx kv cur resolve legacyResult hwResult
          h dst size).2) := by
  have ht : Luma.UnmapProcessMemoryEx kv cur resolve legacyResult hwResult
      h dst size = (0xD8E007F7, [Luma.UnmapEvent.resolveHandle h]) := by
    unfold Luma.UnmapProcessMemoryEx
    rw [if_neg hver]
    simp [hch, hres]
  refine ⟨by rw [ht], by rw [ht], ?_, ?_⟩
  · intro pid pdst pn
    rw [ht]
    simp
  · intro pid
    rw [ht]
    simp

/-- C8 witness: instantiates the theorem at a minor-37 kernel with a
handle table that resolves nothing. -/
theorem c8_invalid_handle_clean_witness :
    ¬ Luma.GET_VERSION_MINOR 0x250000 < 37 ∧ (5 : Nat) ≠ Luma.CUR_PROCESS_HANDLE ∧
    (Luma.UnmapProcessMemoryEx 0x250000 7 (fun _ => none) 0 0
        5 0x100000 0x1000).1 = 0xD8E007F7 ∧
    (Luma.UnmapProcessMemoryEx 0x250000 7 (fun _ => none) 0 0
        5 0x100000 0x1000).2 = [Luma.UnmapEvent.resolveHandle 5] :=
  have h := c8_invalid_handle_clean 0x250000 7 (fun _ => none) 0 0
    5 0x100000 0x1000 (by decide) (by decide) rfl
  ⟨by decide, by decide, h.1, h.2.1⟩

/-- C9: a SetUserString request (command word 2) whose header is malformed
— command word not equal to the expected `IPC_MakeHeader(2, 1, 2)` shape,
or a static-buffer descriptor whose masked shape is not 2 — makes
`ERRF_HandleCommands` reply with the fixed error code 0xD9001830 under an
`IPC_MakeHeader(0, 1, 0)` header and leaves the stored user string
entirely unchanged. -/
theorem c9_set_user_string_malformed (cmdbuf payload userString : Nat → Nat)
    (menuShouldExit : Bool) (info : Luma.ERRF_FatalErrInfo)
    (hcmd : (cmdbuf 0) >>> 16 = 2)
    (hmal : cmdbuf 0 ≠ Luma.IPC_MakeHeader 2 1 2 ∨ (cmdbuf 2) &&& 0x3C0F ≠ 2) :
    (Luma.ERRF_HandleCommands cmdbuf payload userString menuShouldExit
        info).cmdbuf0 = Luma.IPC_MakeHeader 0 1 0 ∧
    (Luma.ERRF_HandleCommands cmdbuf payload userString menuShouldExit
        info).cmdbuf1 = 0xD9001830 ∧
    (Luma.ERRF_HandleCommands cmdbuf payload userString menuShouldExit
        info).userString = userString := by
  have hE : Luma.ERRF_HandleCommands cmdbuf payload userString menuShouldExit
      info =
      { cmdbuf0 := Luma.IPC_MakeHeader 0 1 0
        cmdbuf1 := 0xD9001830
        userString := userString
        displayed := false } := by
    unfold Luma.ERRF_HandleCommands
    rw [hcmd]
    exact if_pos hmal
  exact ⟨by rw [hE], by rw [hE], by rw [hE]⟩

/-- C9 witness: a request whose command word has command id 2 but the
wrong low bits (0x20040 instead of 0x20042): the stored string (constant
byte 65) is untouched and the error code is returned. -/
theorem c9_set_user_string_malformed_witness :
    ((fun j => if j = 0 then (0x20040 : Nat) else 7) 0) >>> 16 = 2 ∧
    (Luma.ERRF_HandleCommands (fun j => if j = 0 then 0x20040 else 7)
        (fun _ => 0) (fun _ => 65) false ⟨.generic, 0⟩).cmdbuf0 =
      Luma.IPC_MakeHeader 0 1 0 ∧
    (Luma.ERRF_HandleCommands (fun j => if j = 0 then 0x20040 else 7)
        (fun _ => 0) (fun _ => 65) false ⟨.generic, 0⟩).cmdbuf1 =
      0xD9001830 ∧
    (Luma.ERRF_HandleCommands (fun j => if j = 0 then 0x20040 else 7)
        (fun _ => 0) (fun _ => 65) false ⟨.generic, 0⟩).userString =
      (fun _ => 65) :=
  have h := c9_set_user_string_malformed
    (fun j => if j = 0 then 0x20040 else 7) (fun _ => 0) (fun _ => 65)
    false ⟨.generic, 0⟩ (by decide) (Or.inl (by decide))
  ⟨by decide, h.1, h.2.1, h.2.2⟩

/-- C10: a Throw request (command word 1) is always answered with the
success header `IPC_MakeHeader(1, 1, 0)` and a zero status word, whatever
the state; the error screen is drawn and acknowledgment awaited exactly
when the menu is not exiting and either the error type is not LOGGED or
the originating process id is 0; the stored user string is untouched. -/
theorem c10_throw_reply (cmdbuf payload userString : Nat → Nat)
    (menuShouldExit : Bool) (info : Luma.ERRF_FatalErrInfo)
    (hcmd : (cmdbuf 0) >>> 16 = 1) :
    (Luma.ERRF_HandleCommands cmdbuf payload userString menuShouldExit
        info).cmdbuf0 = Luma.IPC_MakeHeader 1 1 0 ∧
    (Luma.ERRF_HandleCommands cmdbuf payload userString menuShouldExit
        info).cmdbuf1 = 0 ∧
    ((Luma.ERRF_HandleCommands cmdbuf payload userString menuShouldExit
        info).displayed = true ↔
      (menuShouldExit = false ∧
        (info.errType ≠ Luma.ERRF_ErrType.logged ∨ info.procId = 0))) ∧
    (Luma.ERRF_HandleCommands cmdbuf payload userString menuShouldExit
        info).userString = userString := by
  have hE : Luma.ERRF_HandleCommands cmdbuf payload userString menuShouldExit
      info =
      { cmdbuf0 := Luma.IPC_MakeHeader 1 1 0
        cmdbuf1 := 0
        userString := userString
        displayed := !menuShouldExit &&
          (decide (info.errType ≠ Luma.ERRF_ErrType.logged) ||
            decide (info.procId = 0)) } := by
    unfold Luma.ERRF_HandleCommands
    rw [hcmd]
  refine ⟨by rw [hE], by rw [hE], ?_, by rw [hE]⟩
  rw [hE]
  simp [Bool.and_eq_true, Bool.or_eq_true, Bool.not_eq_true']

/-- C10 witness: a Throw of a LOGGED error from process id 5 while the
menu-exit flag is clear: the display is suppressed yet the reply is the
success header with a zero status word. -/
theorem c10_throw_reply_witness :
    ((fun j => if j = 0 then (0x10040 : Nat) else 0) 0) >>> 16 = 1 ∧
    (Luma.ERRF_HandleCommands (fun j => if j = 0 then 0x10040 else 0)
        (fun _ => 0) (fun _ => 65) false ⟨.logged, 5⟩).cmdbuf0 =
      Luma.IPC_MakeHeader 1 1 0 ∧
    (Luma.ERRF_HandleCommands (fun j => if j = 0 then 0x10040 else 0)
        (fun _ => 0) (fun _ => 65) false ⟨.logged, 5⟩).cmdbuf1 = 0 ∧
    ((Luma.ERRF_HandleCommands (fun j => if j = 0 then 0x10040 else 0)
        (fun _ => 0) (fun _ => 65) false ⟨.logged, 5⟩).displayed = true ↔
      (false = false ∧
        ((Luma.ERRF_FatalErrInfo.mk .logged 5).errType ≠
            Luma.ERRF_ErrType.logged ∨
          (Luma.ERRF_FatalErrInfo.mk .logged 5).procId = 0))) :=
  have h := c10_throw_reply (fun j => if j = 0 then 0x10040 else 0)
    (fun _ => 0) (fun _ => 65) false ⟨.logged, 5⟩ (by decide)
  ⟨by decide, h.1, h.2.1, h.2.2.1⟩
